import Mathlib

/-!
Shallow embedding of the LangGraph RAG agent
(`src/simple_langgraph_test.py`, `src/shared/gcp_rag_helpers.py`).

Modelling conventions:
* Environment variables are `Option String` (or an already-parsed value where
  the source immediately parses); Python's `not x` truthiness on an optional
  string is `falsyEnv`.
* Each graph node is a Lean function from its inputs to `Except PyError Delta`:
  a raised Python exception is `.error`, a returned dict-delta is `.ok`.
  External remote calls (GCS upload, RAG import/list/retrieval, LLM calls)
  are modelled by passing their results (or the LLM as a function) as
  explicit arguments; the arguments the code would send to the external
  service are recorded in the returned record where a claim needs them.
* LangGraph's state merge: the `add_messages` reducer appends the delta's
  message list (all messages produced here are fresh, so no id-based
  replacement occurs); the other fields are overwritten when the delta dict
  contains the key and kept otherwise (`applyDelta`).
-/

deriving instance DecidableEq for Except

namespace RagAgent

/-- Python exceptions raised by the modelled code paths. -/
inductive PyError where
  | indexError (msg : String)
  | valueError (msg : String)
deriving Repr, DecidableEq

/-- Python truthiness test `not x` applied to an optional env string:
`None` and the empty string are falsy. -/
def falsyEnv : Option String → Bool
  | none => true
  | some s => s.isEmpty

/-- The process environment read by the code. `RAG_TOP_K` is modelled
already parsed to a number (the source does `int(os.getenv("RAG_TOP_K", "5"))`;
the string-to-int conversion itself is abstracted). -/
structure Env where
  GCS_BUCKET : Option String
  RAG_CORPUS : Option String
  GCP_PROJECT_ID : Option String
  GCP_LOCATION : Option String
  RAG_TOP_K : Option Nat
deriving Repr, DecidableEq

/-- Message roles (`HumanMessage` / `AIMessage` / `SystemMessage`). -/
inductive Role where
  | user
  | assistant
  | system
deriving Repr, DecidableEq

/-- A LangChain message: role, text content, and the optional free-form
metadata tag (the code only ever sets `metadata={"type": "rag_context"}`,
modelled as the tag string). -/
structure Message where
  role : Role
  content : String
  metadata : Option String := none
deriving Repr, DecidableEq

/-- `CorpusData` pydantic model: normalized metadata for one corpus file. -/
structure CorpusData where
  name : String
  description : String
  status : String
  gcs_uri : String
  created : String
  updated : String
  user_metadata : Option String := none
deriving Repr, DecidableEq

/-- `GraphState` pydantic model: the session state threaded through the
graph.  `question_type` is modelled as an optional string because the router
compares it to a string literal; the pydantic `Literal` annotation restricts
the values the classifier itself can store to the two labels. -/
structure GraphState where
  messages : List Message
  question_type : Option String := none
  corpus_data : Option (List CorpusData) := none
deriving Repr, DecidableEq

/-- A node's returned dict-delta.  An outer `none` means the key is absent
from the returned dict; `question_type` needs a nested option because the
classifier can return the key with value `None`. -/
structure Delta where
  messages : Option (List Message) := none
  question_type : Option (Option String) := none
  corpus_data : Option (List CorpusData) := none
deriving Repr, DecidableEq

/-- LangGraph's per-field merge of a node delta into the state:
`messages` uses the `add_messages` reducer (append of fresh messages);
`question_type` and `corpus_data` are overwritten when the delta carries the
key, kept otherwise. -/
def applyDelta (s : GraphState) (d : Delta) : GraphState :=
  { messages := s.messages ++ (match d.messages with | some ms => ms | none => [])
    question_type := match d.question_type with
      | some q => q
      | none => s.question_type
    corpus_data := match d.corpus_data with
      | some c => some c
      | none => s.corpus_data }

/-! ### Structural string helpers

`String.replace`, `String.splitOn` and `List.mergeSort` in the library are
well-founded recursions that the kernel cannot evaluate, so the embedding
uses structurally recursive equivalents of the Python operations. -/

/-- One step of Python `s.replace(pat, "")` on character lists, fuelled by
the remaining length (each step consumes at least one character for a
non-empty pattern, so `l.length` fuel is exact). -/
def removeAllAux (pat : List Char) : Nat → List Char → List Char
  | _, [] => []
  | 0, l => l
  | fuel + 1, c :: cs =>
    if pat.isPrefixOf (c :: cs) then
      removeAllAux pat fuel ((c :: cs).drop pat.length)
    else
      c :: removeAllAux pat fuel cs

/-- Python `s.replace(pat, "")` for a non-empty pattern: delete every
occurrence of `pat`. -/
def pyRemoveAll (pat s : String) : String :=
  String.mk (removeAllAux pat.data s.data.length s.data)

/-- Python `s.split(".")` on character lists; always returns a non-empty
list of components. -/
def splitDot : List Char → List (List Char)
  | [] => [[]]
  | c :: cs =>
    if c = '.' then
      [] :: splitDot cs
    else
      match splitDot cs with
      | [] => [[c]]
      | p :: ps => (c :: p) :: ps

/-- Python `s.split(".")[-1]`: the component after the last dot (the whole
string when there is no dot). -/
def splitDotLast (s : String) : String :=
  String.mk ((splitDot s.data).getLastD [])

/-- Lexicographic code-point order on character lists: Python's string
comparison. -/
def charListLe : List Char → List Char → Bool
  | [], _ => true
  | _ :: _, [] => false
  | a :: as, b :: bs =>
    if a = b then charListLe as bs else decide (a < b)

/-- Python `s <= t` on strings: lexicographic by Unicode code point. -/
def pyStrLe (s t : String) : Bool :=
  charListLe s.data t.data

/-- Insert a string into a sorted list, keeping ascending order. -/
def insertStr (x : String) : List String → List String
  | [] => [x]
  | y :: ys => if pyStrLe x y then x :: y :: ys else y :: insertStr x ys

/-- Python `sorted(...)` on a list of strings: stable ascending
lexicographic sort (insertion sort). -/
def sortStrings : List String → List String
  | [] => []
  | x :: xs => insertStr x (sortStrings xs)

/-! ### `shared/gcp_rag_helpers.py` -/

/-- `upload_to_gcs`: the GCS URI the helper returns after uploading
(`gs://{bucket_name}/{dest_blob}` with any `gs://` stripped from the
configured bucket).  The remote upload itself is external. -/
def upload_to_gcs (local_file bucket dest_blob : String) : String :=
  let bucket_name := pyRemoveAll "gs://" bucket
  "gs://" ++ bucket_name ++ "/" ++ dest_blob

/-- `import_files_to_rag_corpus`: validates `GCP_PROJECT_ID` and
`GCP_LOCATION`, then performs the remote import whose
(imported, skipped) counts are the external argument `importResp`. -/
def import_files_to_rag_corpus (env : Env) (importResp : Nat × Nat)
    (corpus_name : String) (gcs_uris : List String)
    (chunk_size chunk_overlap : Nat) : Except PyError (Nat × Nat) :=
  if falsyEnv env.GCP_PROJECT_ID then
    .error (.valueError "GCP_PROJECT_ID environment variable is required")
  else if falsyEnv env.GCP_LOCATION then
    .error (.valueError "GCP_LOCATION environment variable is required")
  else
    .ok importResp

/-- The upstream `FileStatus.State` proto enum of a listed RAG file. -/
inductive FileState where
  | STATE_UNSPECIFIED
  | ACTIVE
  | ERROR
deriving Repr, DecidableEq

/-- `str(f.file_status.state)` for a proto-plus enum member renders as
`State.<MEMBER_NAME>`. -/
def FileState.render : FileState → String
  | .STATE_UNSPECIFIED => "State.STATE_UNSPECIFIED"
  | .ACTIVE => "State.ACTIVE"
  | .ERROR => "State.ERROR"

/-- The plain member name of an upstream state, used to phrase what the
string-splitting normalization is expected to produce. -/
def FileState.memberName : FileState → String
  | .STATE_UNSPECIFIED => "STATE_UNSPECIFIED"
  | .ACTIVE => "ACTIVE"
  | .ERROR => "ERROR"

/-- A Vertex RAG file as consumed by `corpus_data_node` / exposed by
`Index.listFiles`.  `hasattr`-guarded or possibly-`None` attributes are
`Option`s: `file_status` is `none` when the attribute chain
`f.file_status.state` is absent; `gcs_source` is `none` when the source
message is absent/falsy and otherwise carries the `uris` repeated field;
`create_time` / `update_time` carry the `str(...)`-rendered timestamp. -/
structure RagFile where
  display_name : String
  description : Option String := none
  file_status : Option FileState := none
  gcs_source : Option (List String) := none
  create_time : Option String := none
  update_time : Option String := none
  user_metadata : Option String := none
deriving Repr, DecidableEq

/-- `list_corpus_files`: validates `GCP_PROJECT_ID` and `GCP_LOCATION`,
then returns the remote listing (the external argument `files`). -/
def list_corpus_files (env : Env) (files : List RagFile)
    (corpus_name : String) : Except PyError (List RagFile) :=
  if falsyEnv env.GCP_PROJECT_ID then
    .error (.valueError "GCP_PROJECT_ID environment variable is required")
  else if falsyEnv env.GCP_LOCATION then
    .error (.valueError "GCP_LOCATION environment variable is required")
  else
    .ok files

/-- Result record of `upload_file_by_index`. -/
structure UploadResult where
  filename : String
  gcs_uri : String
  imported_count : Nat
  skipped_count : Nat
deriving Repr, DecidableEq

/-- `upload_file_by_index`: sort the staging-directory listing (`listing`
models `os.listdir(files_dir)`), bounds-check the index, then upload the
selected file and import it into the corpus. -/
def upload_file_by_index (env : Env) (listing : List String)
    (importResp : Nat × Nat) (index : Int) (bucket corpus_name : String)
    (files_dir : String) (chunk_size chunk_overlap : Nat) :
    Except PyError UploadResult :=
  let files := sortStrings listing
  if index < 0 ∨ (files.length : Int) ≤ index then
    .error (.indexError
      ("Index " ++ toString index ++ " out of range. Found "
        ++ toString files.length ++ " files."))
  else
    let filename := files.getD index.toNat ""
    let local_path := files_dir ++ "/" ++ filename
    let gcs_uri := upload_to_gcs local_path bucket filename
    match import_files_to_rag_corpus env importResp corpus_name [gcs_uri]
        chunk_size chunk_overlap with
    | .error e => .error e
    | .ok counts => .ok
        { filename := filename
          gcs_uri := gcs_uri
          imported_count := counts.1
          skipped_count := counts.2 }

/-! ### Graph nodes (`simple_langgraph_test.py`) -/

/-- `upload_node`: soft-fails (empty message delta) when `GCS_BUCKET` or
`RAG_CORPUS` is unset; otherwise runs `upload_file_by_index` with index 1
and returns an empty message delta. -/
def upload_node (env : Env) (listing : List String) (importResp : Nat × Nat)
    (state : GraphState) : Except PyError Delta :=
  if falsyEnv env.GCS_BUCKET || falsyEnv env.RAG_CORPUS then
    .ok { messages := some [] }
  else
    match upload_file_by_index env listing importResp 1
        (match env.GCS_BUCKET with | some b => b | none => "")
        (match env.RAG_CORPUS with | some c => c | none => "")
        "files_to_upload" 1024 256 with
    | .error e => .error e
    | .ok _ => .ok { messages := some [] }

/-- A retrieved passage; `text` is `none` when the object lacks a `text`
attribute (the `hasattr(c, "text")` guard). -/
structure Passage where
  text : Option String := none
deriving Repr, DecidableEq

/-- The two duck-typed shapes of `resp.contexts`: either directly iterable
passages (flat) or nested one level deeper under a second `.contexts`. -/
inductive Contexts where
  | flat (passages : List Passage)
  | nested (passages : List Passage)
deriving Repr, DecidableEq

/-- A retrieval-service response; `contexts` is `none` when the response
lacks a `contexts` attribute. -/
structure RetrievalResponse where
  contexts : Option Contexts := none
deriving Repr, DecidableEq

/-- The passage-text extraction of `retrieve_node`: unwrap the optional
nesting level, then collect `c.text` for passages that have the
attribute. -/
def extract_context_texts (resp : RetrievalResponse) : List String :=
  match resp.contexts with
  | none => []
  | some (.flat ps) => ps.filterMap (fun c => c.text)
  | some (.nested ps) => ps.filterMap (fun c => c.text)

/-- Result record of `retrieve_node`: the arguments the code sends to
`rag.retrieval_query` (query text and top-k) together with the returned
delta. -/
structure RetrieveCall where
  query_text : String
  top_k : Nat
  delta : Delta
deriving Repr, DecidableEq

/-- `retrieve_node`: reads `top_k` (default 5) and the last message, then
validates `RAG_CORPUS`, `GCP_PROJECT_ID`, `GCP_LOCATION` (in that order,
after the last-message read, matching the source's statement order), then
formats the externally-obtained response `resp` into one tagged assistant
message. -/
def retrieve_node (env : Env) (resp : RetrievalResponse)
    (state : GraphState) : Except PyError RetrieveCall :=
  let top_k := match env.RAG_TOP_K with | some k => k | none => 5
  match state.messages.getLast? with
  | none => .error (.indexError "list index out of range")
  | some last =>
    let user_message := last.content
    if falsyEnv env.RAG_CORPUS then
      .error (.valueError "RAG_CORPUS environment variable is required")
    else if falsyEnv env.GCP_PROJECT_ID then
      .error (.valueError "GCP_PROJECT_ID environment variable is required")
    else if falsyEnv env.GCP_LOCATION then
      .error (.valueError "GCP_LOCATION environment variable is required")
    else
      let context_texts := extract_context_texts resp
      let context_text :=
        if context_texts.isEmpty then
          "No relevant context was found in the knowledge base."
        else
          String.intercalate "\n\n" context_texts
      .ok
        { query_text := user_message
          top_k := top_k
          delta :=
            { messages := some
                [{ role := .assistant
                   content := context_text
                   metadata := some "rag_context" }] } }

/-- Normalization of one listed file into a `CorpusData` entry, exactly as
the loop body of `corpus_data_node` computes it. -/
def normalize_rag_file (f : RagFile) : CorpusData :=
  let status := match f.file_status with
    | some st => splitDotLast st.render
    | none => "UNKNOWN"
  let gcs_uri := match f.gcs_source with
    | some uris =>
      if uris.isEmpty then "N/A" else uris.headD "N/A"
    | none => "N/A"
  { name := f.display_name
    description := match f.description with
      | some s => if s.isEmpty then "" else s
      | none => ""
    status := status
    gcs_uri := gcs_uri
    created := match f.create_time with | some t => t | none => "N/A"
    updated := match f.update_time with | some t => t | none => "N/A"
    user_metadata := match f.user_metadata with
      | some m => if m.isEmpty then none else some m
      | none => none }

/-- `corpus_data_node`: list the corpus (the external listing result is the
argument `files`) and return the full normalized list as the `corpus_data`
delta; produces no message. -/
def corpus_data_node (env : Env) (files : List RagFile)
    (state : GraphState) : Except PyError Delta :=
  match list_corpus_files env files
      (match env.RAG_CORPUS with | some c => c | none => "") with
  | .error e => .error e
  | .ok fs => .ok { corpus_data := some (fs.map normalize_rag_file) }

/-- `QuestionTypeResponse` structured-output model: the pydantic `Literal`
annotation confines a parsed label to `corpus_overview` / `specific_query`,
and an empty or unparseable model response leaves the field `None`. -/
structure QuestionTypeResponse where
  question_type : Option String := none
deriving Repr, DecidableEq

/-- The fixed classifier system instruction. -/
def classifier_system_message : Message :=
  { role := .system
    content := "Analyze the user\x27s question and determine its type:\n1. \x27corpus_overview\x27 - if asking about all files, listing files, or general overview of the knowledge base\n2. \x27specific_query\x27 - if asking a specific question that needs to be answered from particular file(s)\n\nRespond with ONLY \x27corpus_overview\x27 or \x27specific_query\x27." }

/-- `determine_question_type`: invoke the structured-output LLM (the
external argument `llm`) on the system instruction plus the last message,
and return a delta setting `question_type` to the response's label (which
may be `none`). -/
def determine_question_type (llm : List Message → QuestionTypeResponse)
    (state : GraphState) : Except PyError Delta :=
  match state.messages.getLast? with
  | none => .error (.indexError "list index out of range")
  | some last =>
    let response := llm [classifier_system_message, last]
    .ok { question_type := some response.question_type }

/-- The fixed synthesis system instruction. -/
def summary_system_message : Message :=
  { role := .system
    content := "You are a helpful assistant. Answer the user\x27s question using the provided context." }

/-- `summary_node`: invoke the LLM once over the system instruction plus
the whole accumulated message history, appending its reply. -/
def summary_node (llm : List Message → Message)
    (state : GraphState) : Except PyError Delta :=
  let response := llm (summary_system_message :: state.messages)
  .ok { messages := some [response] }

/-- `route_by_question_type`: the conditional-edge router. -/
def route_by_question_type (state : GraphState) : String :=
  if state.question_type = some "corpus_overview" then
    "corpus_data_node"
  else
    "retrieve_node"

/-! ### Helper lemmas -/

theorem insertStr_length (x : String) (l : List String) :
    (insertStr x l).length = l.length + 1 := by
  induction l with
  | nil => rfl
  | cons y ys ih =>
    rw [insertStr]
    split
    · rfl
    · simp [ih]

theorem sortStrings_length (l : List String) :
    (sortStrings l).length = l.length := by
  induction l with
  | nil => rfl
  | cons x xs ih => simp [sortStrings, insertStr_length, ih]

theorem zip_map_snd {α β : Type} (g : α → β) (l : List α) :
    ∀ p ∈ l.zip (l.map g), p.2 = g p.1 := by
  induction l with
  | nil => simp
  | cons a t ih =>
    intro p hp
    rw [List.map_cons, List.zip_cons_cons, List.mem_cons] at hp
    rcases hp with rfl | hp
    · rfl
    · exact ih p hp

theorem normalize_rag_file_fields (f : RagFile) :
    (((normalize_rag_file f).status = "UNKNOWN" ↔ f.file_status = none) ∧
      (∀ st, f.file_status = some st →
        (normalize_rag_file f).status = st.memberName)) ∧
    ((∀ u rest, f.gcs_source = some (u :: rest) →
        (normalize_rag_file f).gcs_uri = u) ∧
      ((f.gcs_source = none ∨ f.gcs_source = some []) →
        (normalize_rag_file f).gcs_uri = "N/A")) ∧
    ((∀ t, f.create_time = some t → (normalize_rag_file f).created = t) ∧
      (f.create_time = none → (normalize_rag_file f).created = "N/A")) ∧
    ((∀ t, f.update_time = some t → (normalize_rag_file f).updated = t) ∧
      (f.update_time = none → (normalize_rag_file f).updated = "N/A")) ∧
    ((∀ m, f.user_metadata = some m → m.isEmpty = false →
        (normalize_rag_file f).user_metadata = some m) ∧
      ((f.user_metadata = none ∨ f.user_metadata = some "") →
        (normalize_rag_file f).user_metadata = none)) := by
  refine ⟨⟨?_, ?_⟩, ⟨?_, ?_⟩, ⟨?_, ?_⟩, ⟨?_, ?_⟩, ?_, ?_⟩
  · cases hfs : f.file_status with
    | none => simp [normalize_rag_file, hfs]
    | some st =>
      cases st <;> simp only [normalize_rag_file, hfs] <;> decide
  · intro st hfs
    cases st <;> simp only [normalize_rag_file, hfs, FileState.memberName] <;>
      decide
  · intro u rest hg
    simp [normalize_rag_file, hg]
  · rintro (hg | hg) <;> simp [normalize_rag_file, hg]
  · intro t ht
    simp [normalize_rag_file, ht]
  · intro ht
    simp [normalize_rag_file, ht]
  · intro t ht
    simp [normalize_rag_file, ht]
  · intro ht
    simp [normalize_rag_file, ht]
  · intro m hm hme
    simp [normalize_rag_file, hm, hme]
  · rintro (hm | hm) <;> simp [normalize_rag_file, hm] <;> decide

/-! ### Claim theorems -/

/-- Claim C1: the router is a pure function of the session state's
`question_type` field; it returns the corpus-metadata branch label exactly
when the field equals the literal `corpus_overview`, and the retrieval
branch label for every other value (including unset and any other
string). -/
theorem spec_c1_router_pure_function (s t : GraphState) :
    (s.question_type = t.question_type →
      route_by_question_type s = route_by_question_type t) ∧
    (s.question_type = some "corpus_overview" →
      route_by_question_type s = "corpus_data_node") ∧
    (s.question_type ≠ some "corpus_overview" →
      route_by_question_type s = "retrieve_node") := by
  refine ⟨fun h => ?_, fun h => ?_, fun h => ?_⟩ <;>
    simp [route_by_question_type, h]

theorem spec_c1_router_pure_function_witness :
    route_by_question_type { messages := [], question_type := some "weird" } =
      "retrieve_node" ∧
    route_by_question_type
        { messages := [], question_type := some "corpus_overview" } =
      "corpus_data_node" :=
  ⟨(spec_c1_router_pure_function
      { messages := [], question_type := some "weird" } { messages := [] }).2.2
      (by decide),
   (spec_c1_router_pure_function
      { messages := [], question_type := some "corpus_overview" }
      { messages := [] }).2.1 rfl⟩

/-- Claim C2: for every step of the graph and every input state, the
messages sequence after merging the step's delta is the prior sequence with
zero or more messages appended, so its length never decreases and the
existing prefix is untouched. -/
theorem spec_c2_messages_append_only (s : GraphState) :
    (∀ env listing importResp d,
      upload_node env listing importResp s = .ok d →
      (∃ t, (applyDelta s d).messages = s.messages ++ t) ∧
      s.messages.length ≤ (applyDelta s d).messages.length) ∧
    (∀ llm d,
      determine_question_type llm s = .ok d →
      (∃ t, (applyDelta s d).messages = s.messages ++ t) ∧
      s.messages.length ≤ (applyDelta s d).messages.length) ∧
    (∀ env files d,
      corpus_data_node env files s = .ok d →
      (∃ t, (applyDelta s d).messages = s.messages ++ t) ∧
      s.messages.length ≤ (applyDelta s d).messages.length) ∧
    (∀ env resp r,
      retrieve_node env resp s = .ok r →
      (∃ t, (applyDelta s r.delta).messages = s.messages ++ t) ∧
      s.messages.length ≤ (applyDelta s r.delta).messages.length) ∧
    (∀ llm d,
      summary_node llm s = .ok d →
      (∃ t, (applyDelta s d).messages = s.messages ++ t) ∧
      s.messages.length ≤ (applyDelta s d).messages.length) := by
  have key : ∀ d : Delta,
      (∃ t, (applyDelta s d).messages = s.messages ++ t) ∧
      s.messages.length ≤ (applyDelta s d).messages.length := by
    intro d
    refine ⟨⟨_, rfl⟩, ?_⟩
    simp [applyDelta]
  exact ⟨fun _ _ _ d _ => key d, fun _ d _ => key d, fun _ _ d _ => key d,
    fun _ _ r _ => key r.delta, fun _ d _ => key d⟩

theorem spec_c2_messages_append_only_witness :
    (∃ t, (applyDelta { messages := [{ role := Role.user, content := "hi" }] }
        { messages := some [{ role := Role.assistant, content := "ans" }] }).messages
      = ({ messages := [{ role := Role.user, content := "hi" }] } : GraphState).messages ++ t) ∧
    ({ messages := [{ role := Role.user, content := "hi" }] } : GraphState).messages.length ≤
      (applyDelta { messages := [{ role := Role.user, content := "hi" }] }
        { messages := some [{ role := Role.assistant, content := "ans" }] }).messages.length :=
  (spec_c2_messages_append_only
      { messages := [{ role := Role.user, content := "hi" }] }).2.2.2.2
    (fun _ => { role := Role.assistant, content := "ans" })
    { messages := some [{ role := Role.assistant, content := "ans" }] } rfl

/-- Claim C4: the Ingestion step soft-fails on missing configuration — with
`GCS_BUCKET` or `RAG_CORPUS` unset it raises no error, returns an empty
message delta, and merging that delta leaves every state field unchanged. -/
theorem spec_c4_ingestion_soft_fail (env : Env) (listing : List String)
    (importResp : Nat × Nat) (s : GraphState)
    (h : falsyEnv env.GCS_BUCKET = true ∨ falsyEnv env.RAG_CORPUS = true) :
    upload_node env listing importResp s = .ok { messages := some [] } ∧
    applyDelta s { messages := some [] } = s := by
  constructor
  · rcases h with h | h <;> simp [upload_node, h]
  · obtain ⟨m, q, c⟩ := s
    simp [applyDelta]

theorem spec_c4_ingestion_soft_fail_witness :
    upload_node
      { GCS_BUCKET := none
        RAG_CORPUS := none
        GCP_PROJECT_ID := none
        GCP_LOCATION := none
        RAG_TOP_K := none }
      [] (0, 0) { messages := [{ role := Role.user, content := "q" }] } =
      .ok { messages := some [] } ∧
    applyDelta { messages := [{ role := Role.user, content := "q" }] }
      { messages := some [] } =
      { messages := [{ role := Role.user, content := "q" }] } :=
  spec_c4_ingestion_soft_fail
    { GCS_BUCKET := none
      RAG_CORPUS := none
      GCP_PROJECT_ID := none
      GCP_LOCATION := none
      RAG_TOP_K := none }
    [] (0, 0) { messages := [{ role := Role.user, content := "q" }] }
    (Or.inl rfl)

/-- Claim C3: the Retrieval step hard-fails on missing configuration —
given the step's implicit precondition of a non-empty message sequence
(claim C10; the graph always seeds `messages` with the user message), an
unset `RAG_CORPUS`, `GCP_PROJECT_ID` or `GCP_LOCATION` makes it raise a
configuration `ValueError` regardless of the retrieval response (so before
any retrieval call), and with all three set an unset `RAG_TOP_K` makes it
issue the query with top-k 5. -/
theorem spec_c3_retrieval_hard_fail (env : Env) (resp : RetrievalResponse)
    (s : GraphState) (hne : s.messages ≠ []) :
    ((falsyEnv env.RAG_CORPUS = true ∨ falsyEnv env.GCP_PROJECT_ID = true ∨
        falsyEnv env.GCP_LOCATION = true) →
      ∃ msg, retrieve_node env resp s = .error (.valueError msg)) ∧
    ((falsyEnv env.RAG_CORPUS = false ∧ falsyEnv env.GCP_PROJECT_ID = false ∧
        falsyEnv env.GCP_LOCATION = false ∧ env.RAG_TOP_K = none) →
      ∀ r, retrieve_node env resp s = .ok r → r.top_k = 5) := by
  obtain ⟨last, hlast⟩ : ∃ m, s.messages.getLast? = some m :=
    Option.isSome_iff_exists.mp (List.getLast?_isSome.mpr hne)
  constructor
  · rintro (h | h | h)
    · exact ⟨"RAG_CORPUS environment variable is required",
        by simp [retrieve_node, hlast, h]⟩
    · by_cases hc : falsyEnv env.RAG_CORPUS
      · exact ⟨"RAG_CORPUS environment variable is required",
          by simp [retrieve_node, hlast, hc]⟩
      · exact ⟨"GCP_PROJECT_ID environment variable is required",
          by simp [retrieve_node, hlast, hc, h]⟩
    · by_cases hc : falsyEnv env.RAG_CORPUS
      · exact ⟨"RAG_CORPUS environment variable is required",
          by simp [retrieve_node, hlast, hc]⟩
      · by_cases hp : falsyEnv env.GCP_PROJECT_ID
        · exact ⟨"GCP_PROJECT_ID environment variable is required",
            by simp [retrieve_node, hlast, hc, hp]⟩
        · exact ⟨"GCP_LOCATION environment variable is required",
            by simp [retrieve_node, hlast, hc, hp, h]⟩
  · rintro ⟨hc, hp, hl, hk⟩ r hr
    simp [retrieve_node, hlast, hc, hp, hl, hk] at hr
    subst hr
    rfl

theorem spec_c3_retrieval_hard_fail_witness :
    (∃ msg, retrieve_node
        { GCS_BUCKET := none
          RAG_CORPUS := none
          GCP_PROJECT_ID := none
          GCP_LOCATION := none
          RAG_TOP_K := none }
        { contexts := none }
        { messages := [{ role := Role.user, content := "q" }] } =
      .error (.valueError msg)) ∧
    ({ query_text := "q"
       top_k := 5
       delta := { messages := some
                    [{ role := Role.assistant
                       content := "No relevant context was found in the knowledge base."
                       metadata := some "rag_context" }] } } : RetrieveCall).top_k = 5 :=
  ⟨(spec_c3_retrieval_hard_fail
      { GCS_BUCKET := none
        RAG_CORPUS := none
        GCP_PROJECT_ID := none
        GCP_LOCATION := none
        RAG_TOP_K := none }
      { contexts := none }
      { messages := [{ role := Role.user, content := "q" }] }
      (by decide)).1 (Or.inl rfl),
   (spec_c3_retrieval_hard_fail
      { GCS_BUCKET := none
        RAG_CORPUS := some "c"
        GCP_PROJECT_ID := some "p"
        GCP_LOCATION := some "l"
        RAG_TOP_K := none }
      { contexts := none }
      { messages := [{ role := Role.user, content := "q" }] }
      (by decide)).2 ⟨rfl, rfl, rfl, rfl⟩
      { query_text := "q"
        top_k := 5
        delta := { messages := some
                     [{ role := Role.assistant
                        content := "No relevant context was found in the knowledge base."
                        metadata := some "rag_context" }] } }
      (by decide)⟩

/-- Claim C5: Ingestion selects its file by positional index into the
sorted staging-directory listing; a negative index or one at or beyond the
number of listed files yields an `IndexError` (the function returns the
error before any upload or import), and an in-range index selects exactly
the file at that position of the sorted listing. -/
theorem spec_c5_ingestion_index_bounds (env : Env) (listing : List String)
    (importResp : Nat × Nat) (index : Int)
    (bucket corpus_name files_dir : String) (chunk_size chunk_overlap : Nat) :
    ((index < 0 ∨ (listing.length : Int) ≤ index) →
      ∃ msg, upload_file_by_index env listing importResp index bucket
          corpus_name files_dir chunk_size chunk_overlap =
        .error (.indexError msg)) ∧
    (0 ≤ index → index < (listing.length : Int) →
      ∀ r, upload_file_by_index env listing importResp index bucket
          corpus_name files_dir chunk_size chunk_overlap = .ok r →
        r.filename = (sortStrings listing).getD index.toNat "") := by
  constructor
  · intro h
    have hcond : index < 0 ∨ ((sortStrings listing).length : Int) ≤ index := by
      rw [sortStrings_length]
      exact h
    exact ⟨"Index " ++ toString index ++ " out of range. Found "
        ++ toString (sortStrings listing).length ++ " files.",
      by simp [upload_file_by_index, hcond]⟩
  · intro h0 hlen r hr
    have hcond : ¬(index < 0 ∨ ((sortStrings listing).length : Int) ≤ index) := by
      rw [sortStrings_length]
      omega
    rw [upload_file_by_index] at hr
    simp only [hcond, if_false, reduceIte] at hr
    split at hr
    · exact absurd hr (by simp)
    · rw [Except.ok.injEq] at hr
      subst hr
      rfl

theorem spec_c5_ingestion_index_bounds_witness :
    (∃ msg, upload_file_by_index
        { GCS_BUCKET := none
          RAG_CORPUS := none
          GCP_PROJECT_ID := none
          GCP_LOCATION := none
          RAG_TOP_K := none }
        ["a.pdf", "b.pdf"] (0, 0) 5 "bkt" "corp" "files_to_upload" 1024 256 =
      .error (.indexError msg)) ∧
    ({ filename := "b.pdf"
       gcs_uri := "gs://bkt/b.pdf"
       imported_count := 1
       skipped_count := 0 } : UploadResult).filename =
      (sortStrings ["b.pdf", "a.pdf"]).getD (Int.toNat 1) "" :=
  ⟨(spec_c5_ingestion_index_bounds
      { GCS_BUCKET := none
        RAG_CORPUS := none
        GCP_PROJECT_ID := none
        GCP_LOCATION := none
        RAG_TOP_K := none }
      ["a.pdf", "b.pdf"] (0, 0) 5 "bkt" "corp" "files_to_upload" 1024 256).1
      (Or.inr (by decide)),
   (spec_c5_ingestion_index_bounds
      { GCS_BUCKET := none
        RAG_CORPUS := some "corp"
        GCP_PROJECT_ID := some "p"
        GCP_LOCATION := some "l"
        RAG_TOP_K := none }
      ["b.pdf", "a.pdf"] (1, 0) 1 "bkt" "corp" "files_to_upload" 1024 256).2
      (by decide) (by decide)
      { filename := "b.pdf"
        gcs_uri := "gs://bkt/b.pdf"
        imported_count := 1
        skipped_count := 0 }
      (by decide)⟩

/-- Claim C6: when the Retrieval step succeeds, the single assistant
message it appends (tagged as retrieved context) has content equal to
exactly the sentinel string when zero passage texts were extracted, and
otherwise the passage texts joined by a blank-line separator. -/
theorem spec_c6_context_sentinel (env : Env) (resp : RetrievalResponse)
    (s : GraphState) (r : RetrieveCall)
    (h : retrieve_node env resp s = .ok r) :
    ∃ m, r.delta.messages = some [m] ∧ m.role = Role.assistant ∧
      m.metadata = some "rag_context" ∧
      (extract_context_texts resp = [] →
        m.content = "No relevant context was found in the knowledge base.") ∧
      (extract_context_texts resp ≠ [] →
        m.content = String.intercalate "\n\n" (extract_context_texts resp)) := by
  rw [retrieve_node] at h
  cases hml : s.messages.getLast? with
  | none =>
    rw [hml] at h
    simp at h
  | some last =>
    rw [hml] at h
    split_ifs at h with hc hp hl
    simp only [Except.ok.injEq] at h
    subst h
    refine ⟨_, rfl, rfl, rfl, fun he => ?_, fun hne => ?_⟩
    · simp [he]
    · simp [hne]

theorem spec_c6_context_sentinel_witness :
    ∃ m, ({ messages := some
              [{ role := Role.assistant
                 content := "No relevant context was found in the knowledge base."
                 metadata := some "rag_context" }] } : Delta).messages = some [m] ∧
      m.role = Role.assistant ∧ m.metadata = some "rag_context" ∧
      (extract_context_texts { contexts := none } = [] →
        m.content = "No relevant context was found in the knowledge base.") ∧
      (extract_context_texts { contexts := none } ≠ [] →
        m.content = String.intercalate "\n\n"
          (extract_context_texts { contexts := none })) :=
  spec_c6_context_sentinel
    { GCS_BUCKET := none
      RAG_CORPUS := some "c"
      GCP_PROJECT_ID := some "p"
      GCP_LOCATION := some "l"
      RAG_TOP_K := none }
    { contexts := none }
    { messages := [{ role := Role.user, content := "q" }] }
    { query_text := "q"
      top_k := 5
      delta := { messages := some
                   [{ role := Role.assistant
                      content := "No relevant context was found in the knowledge base."
                      metadata := some "rag_context" }] } }
    (by decide)

/-- Claim C7: with the listing configuration present, the Corpus Metadata
step never raises: for every listing it returns a `corpus_data` delta with
one entry per listed document in listing order, where `status` is
`"UNKNOWN"` iff the upstream nested status is absent (and otherwise the
plain member name of the status enum), `gcs_uri` is the first recorded
source location or `"N/A"`, `created`/`updated` are the rendered timestamp
or `"N/A"`, and `user_metadata` passes through when present and non-empty
and is omitted otherwise. -/
theorem spec_c7_corpus_metadata_normalization (env : Env)
    (files : List RagFile) (s : GraphState)
    (hp : falsyEnv env.GCP_PROJECT_ID = false)
    (hl : falsyEnv env.GCP_LOCATION = false) :
    ∃ d l, corpus_data_node env files s = .ok d ∧ d.corpus_data = some l ∧
      l.length = files.length ∧
      ∀ p ∈ files.zip l,
        ((p.2.status = "UNKNOWN" ↔ p.1.file_status = none) ∧
          (∀ st, p.1.file_status = some st → p.2.status = st.memberName)) ∧
        ((∀ u rest, p.1.gcs_source = some (u :: rest) → p.2.gcs_uri = u) ∧
          ((p.1.gcs_source = none ∨ p.1.gcs_source = some []) →
            p.2.gcs_uri = "N/A")) ∧
        ((∀ t, p.1.create_time = some t → p.2.created = t) ∧
          (p.1.create_time = none → p.2.created = "N/A")) ∧
        ((∀ t, p.1.update_time = some t → p.2.updated = t) ∧
          (p.1.update_time = none → p.2.updated = "N/A")) ∧
        ((∀ m, p.1.user_metadata = some m → m.isEmpty = false →
            p.2.user_metadata = some m) ∧
          ((p.1.user_metadata = none ∨ p.1.user_metadata = some "") →
            p.2.user_metadata = none)) := by
  refine ⟨{ corpus_data := some (files.map normalize_rag_file) },
    files.map normalize_rag_file, ?_, rfl, by simp, ?_⟩
  · simp [corpus_data_node, list_corpus_files, hp, hl]
  · intro p hp'
    have h2 : p.2 = normalize_rag_file p.1 := zip_map_snd _ _ p hp'
    rw [h2]
    exact normalize_rag_file_fields p.1

theorem spec_c7_corpus_metadata_normalization_witness :
    ∃ d l, corpus_data_node
        { GCS_BUCKET := none
          RAG_CORPUS := some "c"
          GCP_PROJECT_ID := some "p"
          GCP_LOCATION := some "l"
          RAG_TOP_K := none }
        [{ display_name := "doc"
           description := none
           file_status := some FileState.ACTIVE
           gcs_source := some ["gs://x/y"]
           create_time := some "2024-01-01"
           update_time := none
           user_metadata := none }]
        { messages := [] } = .ok d ∧
      d.corpus_data = some l ∧ l.length = 1 := by
  obtain ⟨d, l, h1, h2, h3, _⟩ := spec_c7_corpus_metadata_normalization
    { GCS_BUCKET := none
      RAG_CORPUS := some "c"
      GCP_PROJECT_ID := some "p"
      GCP_LOCATION := some "l"
      RAG_TOP_K := none }
    [{ display_name := "doc"
       description := none
       file_status := some FileState.ACTIVE
       gcs_source := some ["gs://x/y"]
       create_time := some "2024-01-01"
       update_time := none
       user_metadata := none }]
    { messages := [] } rfl rfl
  exact ⟨d, l, h1, h2, h3⟩

/-- Claim C9: `question_type` is written only by the Classifier step — its
delta sets the field to the model's returned label (possibly leaving it
unset when the structured response is empty), while the deltas of the
ingestion, corpus metadata, retrieval and synthesis steps never carry the
key, so merging them leaves `question_type` unchanged. -/
theorem spec_c9_question_type_single_writer (s : GraphState) :
    (∀ llm d, determine_question_type llm s = .ok d →
      ∃ last, s.messages.getLast? = some last ∧
        d.question_type =
          some ((llm [classifier_system_message, last]).question_type) ∧
        (applyDelta s d).question_type =
          (llm [classifier_system_message, last]).question_type) ∧
    (∀ env listing importResp d, upload_node env listing importResp s = .ok d →
      d.question_type = none ∧
      (applyDelta s d).question_type = s.question_type) ∧
    (∀ env files d, corpus_data_node env files s = .ok d →
      d.question_type = none ∧
      (applyDelta s d).question_type = s.question_type) ∧
    (∀ env resp r, retrieve_node env resp s = .ok r →
      r.delta.question_type = none ∧
      (applyDelta s r.delta).question_type = s.question_type) ∧
    (∀ llm d, summary_node llm s = .ok d →
      d.question_type = none ∧
      (applyDelta s d).question_type = s.question_type) := by
  refine ⟨?_, ?_, ?_, ?_, ?_⟩
  · intro llm d h
    rw [determine_question_type] at h
    cases hml : s.messages.getLast? with
    | none => rw [hml] at h; simp at h
    | some last =>
      rw [hml] at h
      simp only [Except.ok.injEq] at h
      subst h
      exact ⟨last, rfl, rfl, rfl⟩
  · intro env listing importResp d h
    rw [upload_node] at h
    split_ifs at h with hb
    · simp only [Except.ok.injEq] at h
      subst h
      exact ⟨rfl, rfl⟩
    · split at h
      · simp at h
      · simp only [Except.ok.injEq] at h
        subst h
        exact ⟨rfl, rfl⟩
  · intro env files d h
    rw [corpus_data_node] at h
    split at h
    · simp at h
    · simp only [Except.ok.injEq] at h
      subst h
      exact ⟨rfl, rfl⟩
  · intro env resp r h
    rw [retrieve_node] at h
    cases hml : s.messages.getLast? with
    | none => rw [hml] at h; simp at h
    | some last =>
      rw [hml] at h
      split_ifs at h with hc hp hl
      simp only [Except.ok.injEq] at h
      subst h
      exact ⟨rfl, rfl⟩
  · intro llm d h
    rw [summary_node] at h
    simp only [Except.ok.injEq] at h
    subst h
    exact ⟨rfl, rfl⟩

theorem spec_c9_question_type_single_writer_witness :
    ∃ last, ({ messages := [{ role := Role.user, content := "list files" }] }
        : GraphState).messages.getLast? = some last ∧
      ({ question_type := some (some "corpus_overview") }
          : Delta).question_type =
        some (((fun _ => ({ question_type := some "corpus_overview" }
          : QuestionTypeResponse)) [classifier_system_message, last]).question_type) ∧
      (applyDelta { messages := [{ role := Role.user, content := "list files" }] }
          { question_type := some (some "corpus_overview") }).question_type =
        ((fun _ => ({ question_type := some "corpus_overview" }
          : QuestionTypeResponse)) [classifier_system_message, last]).question_type :=
  (spec_c9_question_type_single_writer
      { messages := [{ role := Role.user, content := "list files" }] }).1
    (fun _ => { question_type := some "corpus_overview" })
    { question_type := some (some "corpus_overview") } rfl

/-- Claim C8: passage extraction treats the flat and the one-level-nested
response shapes uniformly — the same passages yield the same text list,
hence `retrieve_node` produces identical results for both shapes. -/
theorem spec_c8_response_shape_uniform (ps : List Passage) :
    extract_context_texts { contexts := some (.flat ps) } =
      extract_context_texts { contexts := some (.nested ps) } ∧
    ∀ env s, retrieve_node env { contexts := some (.flat ps) } s =
      retrieve_node env { contexts := some (.nested ps) } s :=
  ⟨rfl, fun _ _ => rfl⟩

/-- Claim C10: the Retrieval and Classifier steps read the last element of
`messages`; in Retrieval this read precedes the configuration checks, so on
an empty messages sequence both fail with an out-of-bounds error — in
Retrieval even when required configuration is also missing (the statement
quantifies over every environment). -/
theorem spec_c10_empty_messages_bounds_error (env : Env)
    (resp : RetrievalResponse) (llm : List Message → QuestionTypeResponse)
    (s : GraphState) (h : s.messages = []) :
    retrieve_node env resp s = .error (.indexError "list index out of range") ∧
    determine_question_type llm s =
      .error (.indexError "list index out of range") := by
  have hml : s.messages.getLast? = none := by rw [h]; rfl
  constructor
  · simp [retrieve_node, hml]
  · simp [determine_question_type, hml]

theorem spec_c10_empty_messages_bounds_error_witness :
    retrieve_node
        { GCS_BUCKET := none
          RAG_CORPUS := none
          GCP_PROJECT_ID := none
          GCP_LOCATION := none
          RAG_TOP_K := none }
        { contexts := none } { messages := [] } =
      .error (.indexError "list index out of range") ∧
    determine_question_type (fun _ => { question_type := none })
        { messages := [] } =
      .error (.indexError "list index out of range") :=
  spec_c10_empty_messages_bounds_error
    { GCS_BUCKET := none
      RAG_CORPUS := none
      GCP_PROJECT_ID := none
      GCP_LOCATION := none
      RAG_TOP_K := none }
    { contexts := none } (fun _ => { question_type := none })
    { messages := [] } rfl

end RagAgent
